import Mathlib

/-!
Verification of the catboost-rs wrapper (`src/model.rs`), a thin binding around
an opaque native scoring engine.  The native engine (`catboost_sys`) is modelled
as an oracle (`Engine`): a record of the functions the wrapper calls through the
foreign boundary.  Each wrapper operation is embedded as a pure Lean function
returning both its Rust-level outcome (ok / typed error / panic) and the trace
of native calls it makes, so that resource and "no native call" properties can
be stated.  Floating-point feature and score values are modelled as real
numbers carried opaquely through the wrapper (the wrapper itself performs no
arithmetic on them except the sigmoid transform).
-/

/-- The model state held behind a native handle, as observed through the four
introspection queries (`GetFloatFeaturesCount`, `GetCatFeaturesCount`,
`GetTreeCount`, `GetDimensionsCount`). -/
structure ModelState where
  floatFeaturesCount : Nat
  catFeaturesCount : Nat
  treeCount : Nat
  dimensionsCount : Nat
deriving DecidableEq

/-- The oracle for the opaque native scoring engine: one field per native
entry point the wrapper invokes.  `predict` receives exactly the data the
wrapper passes to `CalcModelPredictionWithHashedCatFeatures`: the model state,
the float-feature table, the float width taken from row 0, the hashed
categorical table, the categorical width taken from row 0, and the output
buffer; it returns the native boolean status and the buffer contents after the
call.  `lastError` is the process-global last-error message read by
`GetErrorString`. -/
structure Engine where
  hash : String → Int
  loadFileOk : List Nat → Bool
  fileState : List Nat → ModelState
  loadBufferOk : List Nat → Bool
  bufferState : List Nat → ModelState
  predict : ModelState → List (List ℝ) → Nat → List (List Int) → Nat → List ℝ → Bool × List ℝ
  lastError : String

/-- Trace events, one per native entry point invoked by the wrapper.  The
`predict` event records the scalar arguments and the hashed categorical table
the wrapper passed (row count, float width, hashed table, categorical width,
output-buffer length). -/
inductive NativeCall where
  | create : NativeCall
  | delete : NativeCall
  | loadFile : List Nat → NativeCall
  | loadBuffer : List Nat → NativeCall
  | hashCat : String → NativeCall
  | predict : Nat → Nat → List (List Int) → Nat → Nat → NativeCall
  | getLastError : NativeCall
deriving DecidableEq

/-- Modelled from the spec: the error taxonomy of the `error` module, whose
source file (`src/error.rs`) is not part of the provided sources.  The spec's
§7 names `NativeEngineError{message}` (a native boolean failure plus the
engine's diagnostic text) and a distinct `InvalidInputError` kind for
precondition violations raised before any native call. -/
inductive CatBoostError where
  | nativeEngineError : String → CatBoostError
  | invalidInputError : String → CatBoostError
deriving DecidableEq

/-- The outcome of a Rust call: `Ok`, `Err` (a `CatBoostResult`), or a panic
(an unwinding Rust panic, e.g. an out-of-bounds index or a failed `unwrap`). -/
inductive Outcome (α : Type) where
  | ok : α → Outcome α
  | err : CatBoostError → Outcome α
  | panic : String → Outcome α

/-- Modelled from the spec: `CatBoostError::check_return_value` of the `error`
module (source file not provided).  Spec §4.1: on a truthy native return it
returns `Ok(())`; on a falsy return it retrieves the engine's last-error
message and returns the error carrying that message. -/
def check_return_value (code : Bool) (lastError : String) : Except CatBoostError Unit :=
  if code then .ok () else .error (.nativeEngineError lastError)

/-- Embedding of `Model::load` (model.rs lines 20–27), with its native-call trace.
`Model::new` emits `create`.  `CString::new(path_bytes).unwrap()` panics when
the path's byte representation contains an interior NUL byte; the unwinding
panic drops the freshly created `Model`, emitting `delete`.  Otherwise
`LoadFullModelFromFile` is called and its boolean return goes through
`check_return_value`; on failure the `?` operator returns the error and the
local `Model` is dropped (`delete`), on success the loaded model is returned
still owning its handle. -/
def load (e : Engine) (pathBytes : List Nat) : Outcome ModelState × List NativeCall :=
  if 0 ∈ pathBytes then
    (.panic "nul byte found in provided data", [.create, .delete])
  else
    match check_return_value (e.loadFileOk pathBytes) e.lastError with
    | .ok _ => (.ok (e.fileState pathBytes), [.create, .loadFile pathBytes])
    | .error er => (.err er, [.create, .loadFile pathBytes, .getLastError, .delete])

/-- Embedding of `Model::load_buffer` (model.rs lines 29–40), with its
native-call trace.  No `CString` conversion is involved: the buffer pointer and
explicit length go straight to `LoadFullModelFromBuffer`. -/
def load_buffer (e : Engine) (buf : List Nat) : Outcome ModelState × List NativeCall :=
  match check_return_value (e.loadBufferOk buf) e.lastError with
  | .ok _ => (.ok (e.bufferState buf), [.create, .loadBuffer buf])
  | .error er => (.err er, [.create, .loadBuffer buf, .getLastError, .delete])

/-- Dropping a `Model` (model.rs lines 122–126) calls `ModelCalcerDelete`. -/
def dropModel : List NativeCall := [NativeCall.delete]

/-- The native-call trace of a loader followed by the drop of the returned
instance when loading succeeded (on the error and panic paths the instance was
already dropped inside the loader). -/
def lifecycleTrace (r : Outcome ModelState × List NativeCall) : List NativeCall :=
  match r with
  | (.ok _, t) => t ++ dropModel
  | (_, t) => t

/-- The hashed categorical table of model.rs lines 53–66: `GetStringCatFeatureHash`
mapped over every string of every row. -/
def hashed_cat_features (e : Engine) (cat_features : List (List String)) :
    List (List Int) :=
  cat_features.map (fun doc_cat_features => doc_cat_features.map e.hash)

/-- The output buffer of model.rs line 73: `vec![0.0; float_features.len()]`,
a pre-zeroed vector with one slot per input row. -/
def outputBuffer (float_features : List (List ℝ)) : List ℝ :=
  List.replicate float_features.length (0 : ℝ)

/-- Translation of the native prediction status through
`CatBoostError::check_return_value` (model.rs lines 74–85): the wrapper's
result and trace after the native prediction call, given the native call's
(status, written buffer) pair, the last-error slot, the hash-call trace and
the prediction-call event. -/
def translatePrediction (res : Bool × List ℝ) (lastError : String)
    (hashTrace : List NativeCall) (callEvent : NativeCall) :
    Outcome (List ℝ) × List NativeCall :=
  match check_return_value res.1 lastError with
  | .ok _ => (.ok res.2, hashTrace ++ [callEvent])
  | .error er => (.err er, hashTrace ++ [callEvent, .getLastError])

/-- Embedding of `Model::calc_model_prediction` (model.rs lines 43–87), with
its native-call trace.  In source order: the hashed categorical table is computed
first (one `GetStringCatFeatureHash` call per value), then the pre-zeroed
output buffer is allocated, then the arguments of
`CalcModelPredictionWithHashedCatFeatures` are evaluated left to right —
`float_features[0].len()` panics when the float batch is empty, and
`cat_features[0].len()` panics when the categorical batch is empty — and the
native boolean return goes through `check_return_value`. -/
def calc_model_prediction (e : Engine) (m : ModelState)
    (float_features : List (List ℝ)) (cat_features : List (List String)) :
    Outcome (List ℝ) × List NativeCall :=
  let hashed := hashed_cat_features e cat_features
  let hashTrace := cat_features.flatten.map NativeCall.hashCat
  let prediction := outputBuffer float_features
  match float_features with
  | [] => (.panic "index out of bounds", hashTrace)
  | f0 :: _ =>
    match cat_features with
    | [] => (.panic "index out of bounds", hashTrace)
    | c0 :: _ =>
      translatePrediction
        (e.predict m float_features f0.length hashed c0.length prediction)
        e.lastError hashTrace
        (NativeCall.predict float_features.length f0.length hashed c0.length
          prediction.length)

/-- The sigmoid of model.rs lines 133–135: `1. / (1. + (-x).exp())`. -/
noncomputable def sigmoid (x : ℝ) : ℝ := 1 / (1 + Real.exp (-x))

/-- Embedding of `Model::calc_predict_proba` (model.rs lines 91–99): calls
`calc_model_prediction`, propagates its error through `?`, and maps `sigmoid`
over the raw results. -/
noncomputable def calc_predict_proba (e : Engine) (m : ModelState)
    (float_features : List (List ℝ)) (cat_features : List (List String)) :
    Outcome (List ℝ) × List NativeCall :=
  match calc_model_prediction e m float_features cat_features with
  | (.ok raw_results, t) => (.ok (raw_results.map sigmoid), t)
  | (.err er, t) => (.err er, t)
  | (.panic s, t) => (.panic s, t)

/-- Embedding of `Model::get_float_features_count` (model.rs lines 102–104):
a direct pass-through to the native query. -/
def get_float_features_count (m : ModelState) : Nat := m.floatFeaturesCount

/-- Embedding of `Model::get_cat_features_count` (model.rs lines 107–109). -/
def get_cat_features_count (m : ModelState) : Nat := m.catFeaturesCount

/-- Embedding of `Model::get_tree_count` (model.rs lines 112–114). -/
def get_tree_count (m : ModelState) : Nat := m.treeCount

/-- Embedding of `Model::get_dimensions_count` (model.rs lines 117–119). -/
def get_dimensions_count (m : ModelState) : Nat := m.dimensionsCount

/-- Two successive calls of `calc_model_prediction` on the same model and
batch, as performed by a caller invoking the method twice in a row. -/
noncomputable def predictTwice (e : Engine) (m : ModelState)
    (float_features : List (List ℝ)) (cat_features : List (List String)) :
    (Outcome (List ℝ) × List NativeCall) × (Outcome (List ℝ) × List NativeCall) :=
  let first := calc_model_prediction e m float_features cat_features
  let second := calc_model_prediction e m float_features cat_features
  (first, second)

/-- A concrete oracle used to evaluate the embedding at specific inputs:
every categorical string hashes to 7, every prediction call succeeds and
writes `[0]`, and the last-error slot holds `"native failure"`. -/
noncomputable def engineOkay : Engine where
  hash := fun _ => 7
  loadFileOk := fun _ => true
  fileState := fun _ => ⟨3, 1, 1000, 1⟩
  loadBufferOk := fun _ => true
  bufferState := fun _ => ⟨3, 1, 1000, 1⟩
  predict := fun _ _ _ _ _ _ => (true, [(0 : ℝ)])
  lastError := "native failure"

/-- The introspection state of the test fixture model (model.rs tests): three
float features, one categorical feature, 1000 trees, one dimension. -/
def fixtureModel : ModelState := ⟨3, 1, 1000, 1⟩

/-- A two-dimensional (multiclass) model state, for dimensionality claims. -/
def twoDimModel : ModelState := ⟨3, 1, 1000, 2⟩

/-! ### Helper lemmas on the embedding -/

theorem translate_of_true (res : Bool × List ℝ) (le : String)
    (ht : List NativeCall) (ce : NativeCall) (h : res.1 = true) :
    translatePrediction res le ht ce = (.ok res.2, ht ++ [ce]) := by
  unfold translatePrediction check_return_value
  rw [h]
  rfl

theorem translate_of_false (res : Bool × List ℝ) (le : String)
    (ht : List NativeCall) (ce : NativeCall) (h : res.1 = false) :
    translatePrediction res le ht ce =
      (.err (.nativeEngineError le), ht ++ [ce, .getLastError]) := by
  unfold translatePrediction check_return_value
  rw [h]
  rfl

theorem translate_callEvent_mem (res : Bool × List ℝ) (le : String)
    (ht : List NativeCall) (ce : NativeCall) :
    ce ∈ (translatePrediction res le ht ce).2 := by
  rcases res with ⟨b, out⟩
  cases b
  · rw [translate_of_false ⟨false, out⟩ le ht ce rfl]
    simp
  · rw [translate_of_true ⟨true, out⟩ le ht ce rfl]
    simp

theorem translate_ne_invalid (res : Bool × List ℝ) (le : String)
    (ht : List NativeCall) (ce : NativeCall) (msg : String) :
    (translatePrediction res le ht ce).1 ≠ .err (.invalidInputError msg) := by
  rcases res with ⟨b, out⟩
  cases b
  · rw [translate_of_false ⟨false, out⟩ le ht ce rfl]
    simp
  · rw [translate_of_true ⟨true, out⟩ le ht ce rfl]
    simp

theorem calc_model_prediction_cons (e : Engine) (m : ModelState)
    (f0 : List ℝ) (ft : List (List ℝ)) (c0 : List String) (ct : List (List String)) :
    calc_model_prediction e m (f0 :: ft) (c0 :: ct) =
      translatePrediction
        (e.predict m (f0 :: ft) f0.length (hashed_cat_features e (c0 :: ct))
          c0.length (outputBuffer (f0 :: ft)))
        e.lastError ((c0 :: ct).flatten.map NativeCall.hashCat)
        (NativeCall.predict (f0 :: ft).length f0.length
          (hashed_cat_features e (c0 :: ct)) c0.length
          (outputBuffer (f0 :: ft)).length) := rfl

theorem outputBuffer_length (float_features : List (List ℝ)) :
    (outputBuffer float_features).length = float_features.length := by
  simp [outputBuffer]

theorem load_of_ok (e : Engine) (p : List Nat) (h0 : (0 : Nat) ∉ p)
    (hb : e.loadFileOk p = true) :
    load e p = (.ok (e.fileState p), [.create, .loadFile p]) := by
  unfold load check_return_value
  rw [if_neg h0, hb]
  rfl

theorem load_of_fail (e : Engine) (p : List Nat) (h0 : (0 : Nat) ∉ p)
    (hb : e.loadFileOk p = false) :
    load e p =
      (.err (.nativeEngineError e.lastError),
       [.create, .loadFile p, .getLastError, .delete]) := by
  unfold load check_return_value
  rw [if_neg h0, hb]
  rfl

theorem load_buffer_of_ok (e : Engine) (b : List Nat)
    (hb : e.loadBufferOk b = true) :
    load_buffer e b = (.ok (e.bufferState b), [.create, .loadBuffer b]) := by
  unfold load_buffer check_return_value
  rw [hb]
  rfl

theorem load_buffer_of_fail (e : Engine) (b : List Nat)
    (hb : e.loadBufferOk b = false) :
    load_buffer e b =
      (.err (.nativeEngineError e.lastError),
       [.create, .loadBuffer b, .getLastError, .delete]) := by
  unfold load_buffer check_return_value
  rw [hb]
  rfl

/-! ### Claim theorems -/

/-- C1, counterexample: with float rows of unequal width (widths 1 and 2) the
call does not return an `InvalidInputError` — it hashes both categorical
values, invokes the native prediction call with the first row's widths, and
returns the translated native result (`Ok` here). -/
theorem shape_validation_counterexample :
    (calc_model_prediction engineOkay fixtureModel [[1], [2, 3]] [["a"], ["b"]]).1 =
      .ok [(0 : ℝ)] ∧
    (calc_model_prediction engineOkay fixtureModel [[1], [2, 3]] [["a"], ["b"]]).2 =
      [.hashCat "a", .hashCat "b", .predict 2 1 [[7], [7]] 1 2] := ⟨rfl, rfl⟩

/-- C1, amended: `calc_model_prediction` performs no shape validation.  For
every batch with at least one float row and at least one categorical row —
regardless of any width inequality among rows or row-count mismatch between
the two batches — the native prediction call is made, with the widths taken
from the first rows, and the result is never an `InvalidInputError`. -/
theorem calc_no_shape_validation (e : Engine) (m : ModelState)
    (ff : List (List ℝ)) (cf : List (List String))
    (f0 : List ℝ) (ft : List (List ℝ)) (c0 : List String) (ct : List (List String))
    (hf : ff = f0 :: ft) (hc : cf = c0 :: ct) :
    NativeCall.predict ff.length f0.length (hashed_cat_features e cf) c0.length
        ff.length ∈ (calc_model_prediction e m ff cf).2 ∧
    ∀ msg, (calc_model_prediction e m ff cf).1 ≠ .err (.invalidInputError msg) := by
  subst hf hc
  rw [calc_model_prediction_cons, ← outputBuffer_length (f0 :: ft)]
  exact ⟨translate_callEvent_mem _ _ _ _, fun msg => translate_ne_invalid _ _ _ _ msg⟩

/-- Witness for C1's amended theorem at a concrete shape-violating input. -/
theorem calc_no_shape_validation_witness :
    NativeCall.predict ([[1], [2, 3]] : List (List ℝ)).length ([(1 : ℝ)]).length
        (hashed_cat_features engineOkay [["x"], ["y"]]) (["x"]).length
        ([[1], [2, 3]] : List (List ℝ)).length ∈
      (calc_model_prediction engineOkay fixtureModel [[1], [2, 3]] [["x"], ["y"]]).2 ∧
    ∀ msg, (calc_model_prediction engineOkay fixtureModel [[1], [2, 3]] [["x"], ["y"]]).1 ≠
      .err (.invalidInputError msg) :=
  calc_no_shape_validation engineOkay fixtureModel [[1], [2, 3]] [["x"], ["y"]]
    [(1 : ℝ)] [[(2 : ℝ), (3 : ℝ)]] ["x"] [["y"]] rfl rfl

/-- C2: on the empty batch `calc_model_prediction` panics (the source indexes
`float_features[0]` to discover the per-row width) and makes no native
prediction call — the trace is empty, so the native engine is never reached,
but the claim's required behavior (returning an error without panicking) does
not hold. -/
theorem calc_empty_batch_panics :
    (calc_model_prediction engineOkay fixtureModel [] []).1 =
      .panic "index out of bounds" ∧
    (calc_model_prediction engineOkay fixtureModel [] []).2 = [] := ⟨rfl, rfl⟩

/-- C3: the output buffer is `vec![0.0; float_features.len()]` — pre-zeroed
with one slot per input row, ignoring the model's output dimensionality.  For
a model with dimension count 2 and a one-row batch, the allocated buffer and
the `outLen` passed to the native call are 1, not rows × dimensions = 2. -/
theorem calc_output_buffer_ignores_dimensions :
    outputBuffer [[(1 : ℝ), 2, 3]] = [(0 : ℝ)] ∧
    (calc_model_prediction engineOkay twoDimModel [[1, 2, 3]] [["a"]]).2 =
      [.hashCat "a", .predict 1 3 [[7]] 1 1] ∧
    get_dimensions_count twoDimModel = 2 ∧
    (outputBuffer [[(1 : ℝ), 2, 3]]).length ≠
      ([[(1 : ℝ), 2, 3]] : List (List ℝ)).length * get_dimensions_count twoDimModel :=
  ⟨rfl, rfl, rfl, by simp [outputBuffer, get_dimensions_count, twoDimModel]⟩

/-- C5, counterexample: a path whose byte representation contains an interior
NUL byte makes `load` panic (`CString::new(...).unwrap()`), instead of
returning `Ok` or a typed error. -/
theorem load_nul_path_panics :
    (load engineOkay [97, 0, 98]).1 = .panic "nul byte found in provided data" := rfl

/-- C5, amended: for every path whose platform byte representation contains no
interior NUL byte, `load` returns either a fully loaded model or a typed error
translated from the native call — it does not panic.  (Paths with an interior
NUL panic, per the counterexample.) -/
theorem load_total_without_nul (e : Engine) (p : List Nat) (h : (0 : Nat) ∉ p) :
    (load e p).1 = .ok (e.fileState p) ∨
    (load e p).1 = .err (.nativeEngineError e.lastError) := by
  cases hb : e.loadFileOk p
  · right
    rw [load_of_fail e p h hb]
  · left
    rw [load_of_ok e p h hb]

/-- Witness for C5's amended theorem at a concrete NUL-free path. -/
theorem load_total_without_nul_witness :
    (load engineOkay [97]).1 = .ok (engineOkay.fileState [97]) ∨
    (load engineOkay [97]).1 = .err (.nativeEngineError engineOkay.lastError) :=
  load_total_without_nul engineOkay [97] (by decide)

/-- C7: the hashed categorical table is the native hash applied per value,
order-preserving across rows and within each row: for all indices `i`, `j`,
entry `(i, j)` of `hashed_cat_features` is the hash of entry `(i, j)` of the
raw categorical batch (both sides `none` exactly when out of range). -/
theorem hashed_cat_features_elementwise (e : Engine)
    (cat_features : List (List String)) (i j : Nat) :
    ((hashed_cat_features e cat_features)[i]?.bind fun row => row[j]?) =
      (cat_features[i]?.bind fun row => row[j]?).map e.hash := by
  unfold hashed_cat_features
  rcases h : cat_features[i]? with _ | row
  · simp [List.getElem?_map, h]
  · simp [List.getElem?_map, h]

/-- C10: for a fixed engine, model and batch, two successive calls of
`calc_model_prediction` return identical outcomes and traces: the wrapper
threads no mutable state between calls, so the second call repeats the first
(hashing is recomputed, the same marshalled arguments are passed). -/
theorem calc_model_prediction_deterministic (e : Engine) (m : ModelState)
    (float_features : List (List ℝ)) (cat_features : List (List String)) :
    (predictTwice e m float_features cat_features).1 =
      (predictTwice e m float_features cat_features).2 := rfl

theorem load_of_nul (e : Engine) (p : List Nat) (h0 : (0 : Nat) ∈ p) :
    load e p = (.panic "nul byte found in provided data", [.create, .delete]) := by
  unfold load
  rw [if_pos h0]

/-- C4: every native create is matched by exactly one native destroy.  For
every `load` call that returns `Ok` or `Err` (not the `CString` panic path)
and every `load_buffer` call, the full lifecycle trace — the loader's own
native calls followed by the drop of the returned instance when loading
succeeded — contains exactly one `create` and exactly one `delete`. -/
theorem load_handle_released_exactly_once (e : Engine) (p b : List Nat)
    (hp : ∀ s, (load e p).1 ≠ .panic s) :
    ((lifecycleTrace (load e p)).count NativeCall.create = 1 ∧
     (lifecycleTrace (load e p)).count NativeCall.delete = 1) ∧
    ((lifecycleTrace (load_buffer e b)).count NativeCall.create = 1 ∧
     (lifecycleTrace (load_buffer e b)).count NativeCall.delete = 1) := by
  constructor
  · by_cases h0 : (0 : Nat) ∈ p
    · exact absurd (by rw [load_of_nul e p h0])
        (hp "nul byte found in provided data")
    · cases hb : e.loadFileOk p
      · rw [load_of_fail e p h0 hb]
        constructor <;>
          simp [lifecycleTrace, dropModel, List.count_cons, List.count_nil]
      · rw [load_of_ok e p h0 hb]
        constructor <;>
          simp [lifecycleTrace, dropModel, List.count_cons, List.count_nil]
  · cases hb : e.loadBufferOk b
    · rw [load_buffer_of_fail e b hb]
      constructor <;>
        simp [lifecycleTrace, dropModel, List.count_cons, List.count_nil]
    · rw [load_buffer_of_ok e b hb]
      constructor <;>
        simp [lifecycleTrace, dropModel, List.count_cons, List.count_nil]

/-- Witness for C4 at a concrete engine, path and buffer. -/
theorem load_handle_released_exactly_once_witness :
    (((lifecycleTrace (load engineOkay [1, 2])).count NativeCall.create = 1 ∧
      (lifecycleTrace (load engineOkay [1, 2])).count NativeCall.delete = 1) ∧
     ((lifecycleTrace (load_buffer engineOkay [9])).count NativeCall.create = 1 ∧
      (lifecycleTrace (load_buffer engineOkay [9])).count NativeCall.delete = 1)) :=
  load_handle_released_exactly_once engineOkay [1, 2] [9]
    (fun _ h => Outcome.noConfusion h)

/-- C6: `calc_predict_proba` is `calc_model_prediction` followed by the
element-wise logistic transform: on `Ok(raw)` it returns `Ok(raw.map sigmoid)`
(same order and length, same trace), and on `Err` it returns the same error. -/
theorem calc_predict_proba_consistency (e : Engine) (m : ModelState)
    (ff : List (List ℝ)) (cf : List (List String)) :
    (∀ raw t, calc_model_prediction e m ff cf = (.ok raw, t) →
        calc_predict_proba e m ff cf = (.ok (raw.map sigmoid), t)) ∧
    (∀ er t, calc_model_prediction e m ff cf = (.err er, t) →
        calc_predict_proba e m ff cf = (.err er, t)) := by
  constructor
  · intro raw t h
    unfold calc_predict_proba
    rw [h]
  · intro er t h
    unfold calc_predict_proba
    rw [h]

/-- Witness for C6 at a concrete successful prediction. -/
theorem calc_predict_proba_consistency_witness :
    calc_predict_proba engineOkay fixtureModel [[1, 2, 3]] [["north"]] =
      (.ok ([(0 : ℝ)].map sigmoid),
       [.hashCat "north", .predict 1 3 [[7]] 1 1]) :=
  (calc_predict_proba_consistency engineOkay fixtureModel [[1, 2, 3]] [["north"]]).1
    [(0 : ℝ)] [.hashCat "north", .predict 1 3 [[7]] 1 1] rfl

/-- C8: every boolean-returning native call is checked immediately through
`check_return_value`, which yields `Ok(())` on a truthy return and the
engine's last-error message wrapped in an error on a falsy return; for each of
the three call sites (load-from-file, load-from-buffer, batched prediction)
the wrapper's outcome follows that translation — native success propagates the
result, native failure surfaces `NativeEngineError` with the last-error text,
and no failure is ignored or retried. -/
theorem native_return_checked (e : Engine) (p b : List Nat) (m : ModelState)
    (ff : List (List ℝ)) (cf : List (List String))
    (f0 : List ℝ) (ft : List (List ℝ)) (c0 : List String) (ct : List (List String))
    (h0 : (0 : Nat) ∉ p) (hf : ff = f0 :: ft) (hc : cf = c0 :: ct) :
    check_return_value true e.lastError = .ok () ∧
    check_return_value false e.lastError = .error (.nativeEngineError e.lastError) ∧
    (e.loadFileOk p = true → (load e p).1 = .ok (e.fileState p)) ∧
    (e.loadFileOk p = false → (load e p).1 = .err (.nativeEngineError e.lastError)) ∧
    (e.loadBufferOk b = true → (load_buffer e b).1 = .ok (e.bufferState b)) ∧
    (e.loadBufferOk b = false →
      (load_buffer e b).1 = .err (.nativeEngineError e.lastError)) ∧
    ((e.predict m ff f0.length (hashed_cat_features e cf) c0.length
        (outputBuffer ff)).1 = true →
      (calc_model_prediction e m ff cf).1 =
        .ok (e.predict m ff f0.length (hashed_cat_features e cf) c0.length
          (outputBuffer ff)).2) ∧
    ((e.predict m ff f0.length (hashed_cat_features e cf) c0.length
        (outputBuffer ff)).1 = false →
      (calc_model_prediction e m ff cf).1 =
        .err (.nativeEngineError e.lastError)) := by
  subst hf hc
  refine ⟨rfl, rfl, ?_, ?_, ?_, ?_, ?_, ?_⟩
  · intro hb
    rw [load_of_ok e p h0 hb]
  · intro hb
    rw [load_of_fail e p h0 hb]
  · intro hb
    rw [load_buffer_of_ok e b hb]
  · intro hb
    rw [load_buffer_of_fail e b hb]
  · intro hb
    rw [calc_model_prediction_cons, translate_of_true _ _ _ _ hb]
  · intro hb
    rw [calc_model_prediction_cons, translate_of_false _ _ _ _ hb]

/-- Witness for C8: the prediction call site at a concrete input whose native
call succeeds. -/
theorem native_return_checked_witness :
    (calc_model_prediction engineOkay fixtureModel [[1, 2]] [["z"]]).1 =
      .ok (engineOkay.predict fixtureModel [[1, 2]] ([(1 : ℝ), 2]).length
        (hashed_cat_features engineOkay [["z"]]) (["z"]).length
        (outputBuffer [[(1 : ℝ), 2]])).2 :=
  (native_return_checked engineOkay [5] [6] fixtureModel [[1, 2]] [["z"]]
    [(1 : ℝ), 2] [] ["z"] [] (by decide) rfl rfl).2.2.2.2.2.2.1 rfl

/-- C9: when the native engine loads the same model state from a file path and
from an in-memory buffer (both native loads succeeding and installing equal
states), `load` and `load_buffer` return instances with identical
introspection results and identical predictions on every input batch. -/
theorem load_path_buffer_consistent (e : Engine) (p b : List Nat)
    (h0 : (0 : Nat) ∉ p) (hfp : e.loadFileOk p = true)
    (hbb : e.loadBufferOk b = true) (hsame : e.fileState p = e.bufferState b) :
    ∃ m1 m2, (load e p).1 = .ok m1 ∧ (load_buffer e b).1 = .ok m2 ∧
      get_float_features_count m1 = get_float_features_count m2 ∧
      get_cat_features_count m1 = get_cat_features_count m2 ∧
      get_tree_count m1 = get_tree_count m2 ∧
      get_dimensions_count m1 = get_dimensions_count m2 ∧
      ∀ ff cf, calc_model_prediction e m1 ff cf =
        calc_model_prediction e m2 ff cf := by
  refine ⟨e.fileState p, e.bufferState b, ?_, ?_, ?_, ?_, ?_, ?_, ?_⟩
  · rw [load_of_ok e p h0 hfp]
  · rw [load_buffer_of_ok e b hbb]
  · rw [hsame]
  · rw [hsame]
  · rw [hsame]
  · rw [hsame]
  · intro ff cf
    rw [hsame]

/-- Witness for C9 at a concrete engine, path and buffer. -/
theorem load_path_buffer_consistent_witness :
    ∃ m1 m2, (load engineOkay [1, 2]).1 = .ok m1 ∧
      (load_buffer engineOkay [9]).1 = .ok m2 ∧
      get_float_features_count m1 = get_float_features_count m2 ∧
      get_cat_features_count m1 = get_cat_features_count m2 ∧
      get_tree_count m1 = get_tree_count m2 ∧
      get_dimensions_count m1 = get_dimensions_count m2 ∧
      ∀ ff cf, calc_model_prediction engineOkay m1 ff cf =
        calc_model_prediction engineOkay m2 ff cf :=
  load_path_buffer_consistent engineOkay [1, 2] [9] (by decide) rfl rfl rfl
